import Mathlib

/-!
Verification of the per-tick control/reward core of the Franka cube
manipulation tasks (franka_cube_push.py, franka_cube_slide.py,
franka_cube_throw.py).

Real-valued simulator quantities are modelled over `ℝ`; boolean tensors
become `Bool` (using classical decidability for comparisons of reals, which
mirrors the runtime float comparisons); integer tensors such as
`progress_buf` become `ℕ`; per-environment batched tensors become functions
out of the environment index `ℕ`.
-/

open Classical Matrix

noncomputable section

/-! ## Basic vector / tensor helpers (isaacgym torch utilities) -/

/-- Three-dimensional vector, the slice `[:, :3]` of a state tensor. -/
def Vec3 : Type := ℝ × ℝ × ℝ

/-- Quaternion `(x, y, z, w)`, the slice `[:, 3:7]` of a state tensor. -/
def Quat : Type := ℝ × ℝ × ℝ × ℝ

/-- Elementwise difference of 3-vectors (`a - b` on tensors). -/
def vsub3 (a b : Vec3) : Vec3 := (a.1 - b.1, a.2.1 - b.2.1, a.2.2 - b.2.2)

/-- Scalar multiple of a 3-vector (tensor `s * v`, also `v / c` as `(1/c) * v`). -/
def smul3 (s : ℝ) (v : Vec3) : Vec3 := (s * v.1, s * v.2.1, s * v.2.2)

/-- Dot product of 3-vectors (`torch.sum(a * b, dim=-1)`). -/
def dot3 (a b : Vec3) : ℝ := a.1 * b.1 + a.2.1 * b.2.1 + a.2.2 * b.2.2

/-- Euclidean norm of a 3-vector (`torch.norm(v, dim=-1)`). -/
def norm3 (v : Vec3) : ℝ := Real.sqrt (v.1 * v.1 + v.2.1 * v.2.1 + v.2.2 * v.2.2)

/-- Euclidean norm of a quaternion (`torch.norm(q, dim=-1)`). -/
def norm4 (q : Quat) : ℝ :=
  Real.sqrt (q.1 * q.1 + q.2.1 * q.2.1 + q.2.2.1 * q.2.2.1 + q.2.2.2 * q.2.2.2)

/-- Quaternion conjugate, from isaacgym `torch_utils.quat_conjugate`
(`(x, y, z, w) ↦ (-x, -y, -z, w)`). -/
def quatConjugate (q : Quat) : Quat := (-q.1, -q.2.1, -q.2.2.1, q.2.2.2)

/-- Quaternion product, from isaacgym `torch_utils.quat_mul`
(convention `(x, y, z, w)`). -/
def quatMul (a b : Quat) : Quat :=
  let x1 := a.1; let y1 := a.2.1; let z1 := a.2.2.1; let w1 := a.2.2.2
  let x2 := b.1; let y2 := b.2.1; let z2 := b.2.2.1; let w2 := b.2.2.2
  let ww := (z1 + x1) * (x2 + y2)
  let yy := (w1 - y1) * (w2 + z2)
  let zz := (w1 + y1) * (w2 - z2)
  let xx := ww + yy + zz
  let qq := (1 / 2) * (xx + (z1 - x1) * (x2 - y2))
  let w := qq - ww + (z1 - y1) * (y2 - z2)
  let x := qq - xx + (x1 + w1) * (x2 + w2)
  let y := qq - yy + (w1 - x1) * (y2 + z2)
  let z := qq - zz + (z1 + y1) * (w2 - x2)
  (x, y, z, w)

/-- Elementwise clamp from isaacgym `torch_utils.tensor_clamp`:
`torch.max(torch.min(t, max_t), min_t)`, one scalar component. -/
def tensorClamp (x lo hi : ℝ) : ℝ := max (min x hi) lo

/-- Scalar rendering of `torch.where(cond, a, b)` on boolean tensors. -/
def whereB (c : Bool) (a b : Bool) : Bool := if c then a else b

/-- Python / torch floating modulo: `a % b = a - b * floor (a / b)` (the
result has the sign of the divisor `b`). -/
def realFmod (a b : ℝ) : ℝ := a - b * ⌊a / b⌋

/-- Joint-angle wrap used by the nullspace term of `_compute_osc_torques`
in all three tasks: `(x + np.pi) % (2 * np.pi) - np.pi`. -/
def wrapAngle (x : ℝ) : ℝ := realFmod (x + Real.pi) (2 * Real.pi) - Real.pi

/-- Euclidean norm of a per-environment action row (`torch.norm(_, dim=-1)`),
used by the (dead) jerk-penalty code path of the push reward. -/
def listNorm2 (l : List ℝ) : ℝ := Real.sqrt ((l.map fun a => a * a).sum)

/-- Shared termination rule of all three `compute_franka_reward` functions:
`torch.where((progress_buf >= max_episode_length - 1) | success_condition,
torch.ones_like(reset_buf), reset_buf)`. -/
def resetUpdate (resetBuf : Bool) (progressBuf : ℕ) (maxLen : ℝ)
    (success : Bool) : Bool :=
  whereB (decide (maxLen - 1 ≤ (progressBuf : ℝ)) || success) true resetBuf

/-! ## FrankaCubePush: states bag, reward settings, reward function -/

/-- Fields of the `self.states` dictionary read by the push task's
`compute_franka_reward`. -/
structure PushStates where
  cube_pos : Vec3
  cube_quat : Quat
  goal_cube_pos : Vec3
  goal_cube_quat : Quat
  cube_contact : Vec3
  hold_counters : ℝ

/-- The `reward_settings` dictionary built by `FrankaCubePush.__init__`
(its keys are statically fixed there, so it is modelled as a record). -/
structure PushRewardSettings where
  r_pos_scale : ℝ
  r_ori_scale : ℝ
  r_contact_scale : ℝ
  r_success_scale : ℝ
  n_hold_steps : ℝ
  success_threshold : ℝ

/-- Success condition of the push task's `compute_franka_reward`:
`states["hold_counters"] > reward_settings["n_hold_steps"]`. -/
def pushSuccessCondition (rs : PushRewardSettings) (st : PushStates) : Bool :=
  decide (rs.n_hold_steps < st.hold_counters)

set_option linter.unusedVariables false in
/-- The push task's jit `compute_franka_reward`, returning
`(rewards, reset_buf, success_condition)`.  `ori_reward` and `jerk_penalty`
are computed by the source but never added into `rewards`, so they appear
here as bindings that the result does not use. -/
def pushComputeFrankaReward (resetBuf : Bool) (progressBuf : ℕ)
    (actions : List ℝ) (st : PushStates) (rs : PushRewardSettings)
    (maxLen : ℝ) : ℝ × Bool × Bool :=
  let deltaPos := norm3 (vsub3 st.cube_pos st.goal_cube_pos)
  let success := pushSuccessCondition rs st
  let posReward := 1 - Real.tanh (10 * deltaPos)
  let deltaQuat := quatMul st.cube_quat (quatConjugate st.goal_cube_quat)
  let oriReward := 1 - Real.tanh (10 * norm4 deltaQuat)
  let contactReward := 1 - Real.tanh (10 * norm3 st.cube_contact)
  let jerkPenalty := listNorm2 (List.zipWith (fun a b => a - b) actions actions.tail)
  let successReward := (if success = true then (1 : ℝ) else 0) * maxLen
  let rewards := rs.r_pos_scale * posReward +
    rs.r_contact_scale * contactReward +
    rs.r_success_scale * successReward
  let resetOut := resetUpdate resetBuf progressBuf maxLen success
  (rewards, resetOut, success)

/-- Hold-counter refresh from `FrankaCubePush._update_states`:
`torch.where(dists_norm < success_threshold, hold_counters + 1, 0)` with
`dists = goal_cube_state[:, :3] - cube_state[:, :3]`. -/
def updateHoldCounter (cubePos goalPos : Vec3) (thr hold : ℝ) : ℝ :=
  if norm3 (vsub3 goalPos cubePos) < thr then hold + 1 else 0

/-- Hold counter after `k` state refreshes starting from the reset value `0`,
with `cp j` / `gp j` the cube and goal positions seen at refresh `j`. -/
def holdAfter (cp gp : ℕ → Vec3) (thr : ℝ) : ℕ → ℝ
  | 0 => 0
  | k + 1 => updateHoldCounter (cp k) (gp k) thr (holdAfter cp gp thr k)

/-! ## FrankaCubeSlide: reward settings dictionary and reward function -/

/-- Fields of the `self.states` dictionary read by the slide task's
`compute_franka_reward`. -/
structure SlideStates where
  cube_pos : Vec3
  cube_vel : Vec3
  cube_contact : Vec3
  goal_cube_pos : Vec3

/-- The string-keyed `reward_settings` dictionary of the slide task,
looked up dynamically (`Dict[str, float]` in the jit function), so it is
modelled as an association list. -/
def lookupSetting (rs : List (String × ℝ)) (k : String) : Except String ℝ :=
  match List.lookup k rs with
  | some v => Except.ok v
  | none => Except.error ("KeyError: " ++ k)

/-- The `reward_settings` dictionary built by `FrankaCubeSlide.__init__`:
exactly the keys `r_pos_scale`, `r_ori_scale`, `r_contact_scale`. -/
def slideInitRewardSettings (posScale oriScale contactScale : ℝ) :
    List (String × ℝ) :=
  [("r_pos_scale", posScale), ("r_ori_scale", oriScale),
   ("r_contact_scale", contactScale)]

/-- Velocity-along-goal-direction term of the slide task's reward:
`direction = (goal_pos - cube_pos) / (delta_pos + 1e-6)` followed by
`torch.sum(cube_vel * direction, dim=-1)`.  Note the object velocity is not
normalized. -/
def slideVelAlongDirection (st : SlideStates) : ℝ :=
  let deltaPosVec := vsub3 st.goal_cube_pos st.cube_pos
  let deltaPos := norm3 deltaPosVec
  let direction := smul3 (1 / (deltaPos + 1 / 1000000)) deltaPosVec
  dot3 st.cube_vel direction

/-- The slide task's `vel_reward = torch.clamp(vel_along_direction, min=0.0)`. -/
def slideVelReward (st : SlideStates) : ℝ := max (slideVelAlongDirection st) 0

/-- Success condition of the slide task's `compute_franka_reward`:
`delta_pos < 0.05` with the hardcoded `success_threshold = 0.05`. -/
def slideSuccessCondition (st : SlideStates) : Bool :=
  decide (norm3 (vsub3 st.goal_cube_pos st.cube_pos) < 5 / 100)

/-- The slide task's jit `compute_franka_reward`.  The `rewards` expression
looks up `r_pos_scale`, `r_contact_scale` and `r_vel_scale` in the settings
dictionary (in source order, before the reset computation); a missing key
raises, modelled by `Except.error`. -/
def slideComputeFrankaReward (resetBuf : Bool) (progressBuf : ℕ)
    (st : SlideStates) (rs : List (String × ℝ)) (maxLen : ℝ) :
    Except String (ℝ × Bool × Bool) := do
  let deltaPos := norm3 (vsub3 st.goal_cube_pos st.cube_pos)
  let posReward := 1 - Real.tanh (10 * deltaPos)
  let velAlongDirection := slideVelAlongDirection st
  let velReward := max velAlongDirection 0
  let contactPenalty : Vec3 :=
    if (1 / 10 : ℝ) < velAlongDirection then st.cube_contact else (0, 0, 0)
  let contactReward := 1 - Real.tanh (10 * norm3 contactPenalty)
  let rPos ← lookupSetting rs "r_pos_scale"
  let rContact ← lookupSetting rs "r_contact_scale"
  let rVel ← lookupSetting rs "r_vel_scale"
  let rewards := rPos * posReward + rContact * contactReward + rVel * velReward
  let success := slideSuccessCondition st
  let resetOut := resetUpdate resetBuf progressBuf maxLen success
  pure (rewards, resetOut, success)

/-! ## FrankaCubeThrow: direction-alignment reward slice -/

/-- Normalized goal direction from the throw task's reward:
`goal_dir = (goal_pos - cube_pos) / (norm + 1e-7)`. -/
def throwGoalDir (cubePos goalPos : Vec3) : Vec3 :=
  let g := vsub3 goalPos cubePos
  smul3 (1 / (norm3 g + 1 / 10000000)) g

/-- Normalized object velocity from the throw task's reward:
`vel_dir = cube_vel / (norm + 1e-7)`. -/
def throwVelDir (cubeVel : Vec3) : Vec3 :=
  smul3 (1 / (norm3 cubeVel + 1 / 10000000)) cubeVel

/-- Alignment `torch.sum(goal_dir * vel_dir, dim=-1)` of the throw reward. -/
def throwDirAlignment (cubePos goalPos cubeVel : Vec3) : ℝ :=
  dot3 (throwGoalDir cubePos goalPos) (throwVelDir cubeVel)

/-- The throw task's direction term `torch.clamp(dir_alignment, min=0.0)`
(the factor `r_vel_scale` then scales it into `direction_reward`). -/
def throwDirectionTerm (cubePos goalPos cubeVel : Vec3) : ℝ :=
  max (throwDirAlignment cubePos goalPos cubeVel) 0

/-! ## Episode reset (`reset_idx`) and the per-tick counter state machines -/

/-- Construction-time Franka configuration read by `reset_idx`. -/
structure FrankaCfg where
  defaultDofPos : Fin 9 → ℝ
  dofNoise : ℝ
  dofLower : Fin 9 → ℝ
  dofUpper : Fin 9 → ℝ

/-- Sampled joint pose of `reset_idx`:
`tensor_clamp(default + dof_noise * 2 * (rand - 0.5), lower, upper)` followed
by the gripper overwrite `pos[:, -2:] = default[-2:]` (no noise there). -/
def resetDofPos (cfg : FrankaCfg) (noise : Fin 9 → ℝ) (j : Fin 9) : ℝ :=
  if 7 ≤ j.val then cfg.defaultDofPos j
  else tensorClamp (cfg.defaultDofPos j + cfg.dofNoise * 2 * (noise j - 1 / 2))
    (cfg.dofLower j) (cfg.dofUpper j)

/-- Mutable per-environment buffers of `FrankaCubePush` touched by
`reset_idx`, `_update_states`, `post_physics_step` and `compute_reward`. -/
structure PushSimState where
  q : ℕ → Fin 9 → ℝ
  qd : ℕ → Fin 9 → ℝ
  posControl : ℕ → Fin 9 → ℝ
  effortControl : ℕ → Fin 9 → ℝ
  holdCounters : ℕ → ℝ
  progressBuf : ℕ → ℕ
  resetBuf : ℕ → Bool

/-- `FrankaCubePush.reset_idx(env_ids)` on the modelled buffers: joint state
is resampled from the noise stream, controls are zeroed, and
`progress_buf`, `reset_buf` and `states["hold_counters"]` are zeroed for the
affected indices. -/
def pushResetIdx (cfg : FrankaCfg) (s : PushSimState) (ids : Finset ℕ)
    (noise : ℕ → Fin 9 → ℝ) : PushSimState where
  q := fun i => if i ∈ ids then resetDofPos cfg (noise i) else s.q i
  qd := fun i => if i ∈ ids then (fun _ => 0) else s.qd i
  posControl := fun i => if i ∈ ids then resetDofPos cfg (noise i) else s.posControl i
  effortControl := fun i => if i ∈ ids then (fun _ => 0) else s.effortControl i
  holdCounters := fun i => if i ∈ ids then 0 else s.holdCounters i
  progressBuf := fun i => if i ∈ ids then 0 else s.progressBuf i
  resetBuf := fun i => if i ∈ ids then false else s.resetBuf i

/-- Reachable `FrankaCubePush` buffer states: the initial allocation
(`hold_counters = torch.zeros`, `progress_buf = 0`), closed under the state
refresh of `_update_states` (with the cube/goal positions `cp`/`gp`
delivered by the simulator), the `progress_buf += 1` of
`post_physics_step`, the `reset_buf` write of `compute_reward` and
`reset_idx` on an arbitrary index set. -/
inductive PushReach (cfg : FrankaCfg) (thr : ℝ) : PushSimState → Prop
  | init (q0 qd0 pc0 ec0 : ℕ → Fin 9 → ℝ) (rb0 : ℕ → Bool) :
      PushReach cfg thr
        { q := q0, qd := qd0, posControl := pc0, effortControl := ec0,
          holdCounters := fun _ => 0, progressBuf := fun _ => 0,
          resetBuf := rb0 }
  | refresh (s : PushSimState) (cp gp : ℕ → Vec3) :
      PushReach cfg thr s →
      PushReach cfg thr
        { s with holdCounters := fun i =>
            updateHoldCounter (cp i) (gp i) thr (s.holdCounters i) }
  | stepProgress (s : PushSimState) :
      PushReach cfg thr s →
      PushReach cfg thr { s with progressBuf := fun i => s.progressBuf i + 1 }
  | reward (s : PushSimState) (success : ℕ → Bool) (maxLen : ℝ) :
      PushReach cfg thr s →
      PushReach cfg thr
        { s with resetBuf := fun i =>
            resetUpdate (s.resetBuf i) (s.progressBuf i) maxLen (success i) }
  | reset (s : PushSimState) (ids : Finset ℕ) (noise : ℕ → Fin 9 → ℝ) :
      PushReach cfg thr s →
      PushReach cfg thr (pushResetIdx cfg s ids noise)

/-! ## FrankaCubeThrow: joint-velocity PID, contact timer, reset -/

/-- The throw task's `controlled_joints = torch.tensor([1, 3, 5])`. -/
def throwControlledJoints : Finset (Fin 7) := {1, 3, 5}

/-- The throw task's velocity PID gains `kp_vel = [10.] * 7`. -/
def throwKpVel : Fin 7 → ℝ := fun _ => 10

/-- The throw task's velocity PID gains `ki_vel = [50] * 7`. -/
def throwKiVel : Fin 7 → ℝ := fun _ => 50

/-- `FrankaCubeThrow._compute_jvel_torques(jvel)`: velocity error is
`jvel - qd` on controlled joints and `0 - qd` elsewhere; the integral error
accumulates with `self.vel_i_error += vel_error` (no decay, no anti-windup);
the output is clamped to the effort limits.  Returns the clamped torques
together with the updated accumulator. -/
def computeJvelTorques (qd velIError jvel : Fin 7 → ℝ)
    (effortLimit : Fin 7 → ℝ) : (Fin 7 → ℝ) × (Fin 7 → ℝ) :=
  let velError : Fin 7 → ℝ := fun i =>
    if i ∈ throwControlledJoints then jvel i - qd i else 0 - qd i
  let newIError : Fin 7 → ℝ := fun i => velIError i + velError i
  let u : Fin 7 → ℝ := fun i =>
    tensorClamp (throwKpVel i * velError i + throwKiVel i * newIError i)
      (-effortLimit i) (effortLimit i)
  (u, newIError)

/-- Contact-timer refresh from `FrankaCubeThrow.post_physics_step`:
`in_contact = (torch.norm(cube_contact) < 0.2).float()` and
`contact_time = (contact_time + in_contact) * (1 - reset_buf.float())`. -/
def throwContactUpdate (cubeContact : Vec3) (resetBuf : Bool) (ct : ℝ) : ℝ :=
  (ct + (if norm3 cubeContact < 2 / 10 then (1 : ℝ) else 0)) *
    (1 - (if resetBuf then (1 : ℝ) else 0))

/-- Mutable per-environment buffers of `FrankaCubeThrow` touched by
`reset_idx`, `post_physics_step` and `_compute_jvel_torques`. -/
structure ThrowSimState where
  q : ℕ → Fin 9 → ℝ
  qd : ℕ → Fin 9 → ℝ
  posControl : ℕ → Fin 9 → ℝ
  effortControl : ℕ → Fin 9 → ℝ
  contactTime : ℕ → ℝ
  velIError : ℕ → Fin 7 → ℝ
  progressBuf : ℕ → ℕ
  resetBuf : ℕ → Bool

/-- `FrankaCubeThrow.reset_idx(env_ids)` on the modelled buffers:
`contact_time`, `progress_buf` and `reset_buf` are zeroed and the joint
state resampled for the affected indices.  The body of `reset_idx` contains
no write to `self.vel_i_error`, so that field is carried over unchanged. -/
def throwResetIdx (cfg : FrankaCfg) (s : ThrowSimState) (ids : Finset ℕ)
    (noise : ℕ → Fin 9 → ℝ) : ThrowSimState where
  q := fun i => if i ∈ ids then resetDofPos cfg (noise i) else s.q i
  qd := fun i => if i ∈ ids then (fun _ => 0) else s.qd i
  posControl := fun i => if i ∈ ids then resetDofPos cfg (noise i) else s.posControl i
  effortControl := fun i => if i ∈ ids then (fun _ => 0) else s.effortControl i
  contactTime := fun i => if i ∈ ids then 0 else s.contactTime i
  velIError := s.velIError
  progressBuf := fun i => if i ∈ ids then 0 else s.progressBuf i
  resetBuf := fun i => if i ∈ ids then false else s.resetBuf i

/-- Reachable `FrankaCubeThrow` buffer states: initial allocation
(`contact_time = torch.zeros`, `vel_i_error = torch.zeros`), closed under
the contact-timer refresh and `progress_buf += 1` of `post_physics_step`,
the `reset_buf` write of `compute_reward`, the accumulator update of
`_compute_jvel_torques` and `reset_idx`. -/
inductive ThrowReach (cfg : FrankaCfg) : ThrowSimState → Prop
  | init (q0 qd0 pc0 ec0 : ℕ → Fin 9 → ℝ) (rb0 : ℕ → Bool) :
      ThrowReach cfg
        { q := q0, qd := qd0, posControl := pc0, effortControl := ec0,
          contactTime := fun _ => 0, velIError := fun _ _ => 0,
          progressBuf := fun _ => 0, resetBuf := rb0 }
  | contactStep (s : ThrowSimState) (cc : ℕ → Vec3) :
      ThrowReach cfg s →
      ThrowReach cfg
        { s with contactTime := fun i =>
            throwContactUpdate (cc i) (s.resetBuf i) (s.contactTime i) }
  | stepProgress (s : ThrowSimState) :
      ThrowReach cfg s →
      ThrowReach cfg { s with progressBuf := fun i => s.progressBuf i + 1 }
  | reward (s : ThrowSimState) (success : ℕ → Bool) (maxLen : ℝ) :
      ThrowReach cfg s →
      ThrowReach cfg
        { s with resetBuf := fun i =>
            resetUpdate (s.resetBuf i) (s.progressBuf i) maxLen (success i) }
  | jvel (s : ThrowSimState) (jvel : ℕ → Fin 7 → ℝ) (lim : Fin 7 → ℝ) :
      ThrowReach cfg s →
      ThrowReach cfg
        { s with velIError := fun i =>
            (computeJvelTorques (fun j => s.qd i (Fin.castLE (by omega) j))
              (s.velIError i) (jvel i) lim).2 }
  | reset (s : ThrowSimState) (ids : Finset ℕ) (noise : ℕ → Fin 9 → ℝ) :
      ThrowReach cfg s →
      ThrowReach cfg (throwResetIdx cfg s ids noise)

/-! ## Operational-space control (`_compute_osc_torques`) -/

/-- Inputs of `_compute_osc_torques` (identical in all three tasks): the
simulator-owned mass matrix `mm[:, :7, :7]` and hand Jacobian
`j_eef` (6 x 7), the joint state `q`, `qd`, the end-effector twist, the
task-space gains `kp`, `kd`, the nullspace gains `kp_null = [10.] * 7`,
`kd_null = 2 * sqrt(kp_null)`, the default joint pose and the actuator
effort limits. -/
structure OscInputs where
  mm : Matrix (Fin 7) (Fin 7) ℝ
  jEef : Matrix (Fin 6) (Fin 7) ℝ
  q : Fin 7 → ℝ
  qd : Fin 7 → ℝ
  eefVel : Fin 6 → ℝ
  kp : Fin 6 → ℝ
  kd : Fin 6 → ℝ
  kpNull : Fin 7 → ℝ
  kdNull : Fin 7 → ℝ
  defaultDofPos : Fin 7 → ℝ
  effortLimit : Fin 7 → ℝ

/-- Joint-angle error toward the default pose feeding `kp_null` in the
nullspace term: `(franka_default_dof_pos[:7] - q + np.pi) % (2*np.pi) - np.pi`. -/
def oscNullJointError (inp : OscInputs) (i : Fin 7) : ℝ :=
  wrapAngle (inp.defaultDofPos i - inp.q i)

/-- Torque of `_compute_osc_torques` before the final clamp:
`u = J^T M_eef (kp * dpose - kd * eef_vel)` plus the nullspace projection of
`u_null` (the `u_null[:, 7:] *= 0` write of the source touches an empty
slice of the 7-column tensor and is a no-op). -/
def oscPreClamp (inp : OscInputs) (dpose : Fin 6 → ℝ) : Fin 7 → ℝ :=
  let mmInv := inp.mm⁻¹
  let mEefInv := inp.jEef * mmInv * inp.jEefᵀ
  let mEef := mEefInv⁻¹
  let u := inp.jEefᵀ *ᵥ (mEef *ᵥ fun i => inp.kp i * dpose i - inp.kd i * inp.eefVel i)
  let jEefInv := mEef * inp.jEef * mmInv
  let uNull : Fin 7 → ℝ := fun i =>
    inp.kdNull i * (-inp.qd i) + inp.kpNull i * oscNullJointError inp i
  let uNullM := inp.mm *ᵥ uNull
  u + (1 - inp.jEefᵀ * jEefInv) *ᵥ uNullM

/-- Full `_compute_osc_torques`: the pre-clamp torque clipped elementwise by
`tensor_clamp(u, -effort_limits[:7], effort_limits[:7])`. -/
def computeOscTorques (inp : OscInputs) (dpose : Fin 6 → ℝ) : Fin 7 → ℝ :=
  fun i => tensorClamp (oscPreClamp inp dpose i) (-inp.effortLimit i) (inp.effortLimit i)

/-! ## Proprioceptive history buffer (`store_proprio_hist`) -/

/-- The history buffer of one environment: `prop_hist_len` slots, each a
row of feature width `prop_dim`; the newest data lives in the last slot. -/
def storeProprioHist (buf : List (List ℝ)) (propDim : ℕ) (src : List ℝ) :
    Except String (List (List ℝ)) :=
  if propDim < src.length then
    Except.error "Proprioception buffer dimension mismatch!"
  else
    let padded := src ++ List.replicate (propDim - src.length) 0
    let rolled := buf.rotateLeft 1
    Except.ok (rolled.set (rolled.length - 1) padded)

/-! ## Concrete inputs used to instantiate claims -/

/-- Concrete push states bag with everything at the origin. -/
def pushStatesZero : PushStates where
  cube_pos := (0, 0, 0)
  cube_quat := (0, 0, 0, 1)
  goal_cube_pos := (0, 0, 0)
  goal_cube_quat := (0, 0, 0, 1)
  cube_contact := (0, 0, 0)
  hold_counters := 0

/-- Concrete push reward settings with `n_hold_steps = 3` and the hardcoded
`success_threshold = 0.05`. -/
def pushRewardSettingsEx : PushRewardSettings where
  r_pos_scale := 1
  r_ori_scale := 1
  r_contact_scale := 1
  r_success_scale := 1
  n_hold_steps := 3
  success_threshold := 5 / 100

/-- Concrete slide states bag with everything at the origin. -/
def slideStatesZero : SlideStates where
  cube_pos := (0, 0, 0)
  cube_vel := (0, 0, 0)
  cube_contact := (0, 0, 0)
  goal_cube_pos := (0, 0, 0)

/-- Concrete slide states bag: goal one meter away along x, object sliding
toward it at 10 m/s. -/
def slideFastState : SlideStates where
  cube_pos := (0, 0, 0)
  cube_vel := (10, 0, 0)
  cube_contact := (0, 0, 0)
  goal_cube_pos := (1, 0, 0)

/-- Zero 3-vector. -/
def vzero : Vec3 := (0, 0, 0)

/-- Push states bag after `k` state refreshes with the cube sitting exactly
on the goal (hold counter accumulated over `k` within-threshold refreshes). -/
def pushHeldState (k : ℕ) : PushStates :=
  { pushStatesZero with
    hold_counters := holdAfter (fun _ => vzero) (fun _ => vzero)
      pushRewardSettingsEx.success_threshold k }

/-- Concrete Franka configuration with zero default pose and no noise. -/
def frankaCfgZero : FrankaCfg where
  defaultDofPos := fun _ => 0
  dofNoise := 0
  dofLower := fun _ => -3
  dofUpper := fun _ => 3

/-- Concrete all-zero push buffer state. -/
def pushSimStateZero : PushSimState where
  q := fun _ _ => 0
  qd := fun _ _ => 0
  posControl := fun _ _ => 0
  effortControl := fun _ _ => 0
  holdCounters := fun _ => 0
  progressBuf := fun _ => 0
  resetBuf := fun _ => false

/-- Concrete throw buffer state whose PID integral accumulator holds `5` in
every joint of every environment. -/
def throwSimStateFive : ThrowSimState where
  q := fun _ _ => 0
  qd := fun _ _ => 0
  posControl := fun _ _ => 0
  effortControl := fun _ _ => 0
  contactTime := fun _ => 0
  velIError := fun _ _ => 5
  progressBuf := fun _ => 0
  resetBuf := fun _ => false

/-- Concrete all-zero throw buffer state (the initial allocation). -/
def throwSimStateZero : ThrowSimState where
  q := fun _ _ => 0
  qd := fun _ _ => 0
  posControl := fun _ _ => 0
  effortControl := fun _ _ => 0
  contactTime := fun _ => 0
  velIError := fun _ _ => 0
  progressBuf := fun _ => 0
  resetBuf := fun _ => false

/-- Concrete OSC input with the arm at `q = -pi` and default pose `0`, so the
raw joint-angle error toward the default pose is exactly `pi`. -/
def oscInputAtPi : OscInputs where
  mm := 1
  jEef := 0
  q := fun _ => -Real.pi
  qd := fun _ => 0
  eefVel := fun _ => 0
  kp := fun _ => 150
  kd := fun _ => 2 * Real.sqrt 150
  kpNull := fun _ => 10
  kdNull := fun _ => 2 * Real.sqrt 10
  defaultDofPos := fun _ => 0
  effortLimit := fun _ => 87

end

/-! ## Helper lemmas -/

theorem realFmod_eq_mul_fract (a b : ℝ) (hb : b ≠ 0) :
    realFmod a b = b * Int.fract (a / b) := by
  unfold realFmod Int.fract
  rw [mul_sub, mul_div_cancel₀ a hb]

theorem realFmod_nonneg (a b : ℝ) (hb : 0 < b) : 0 ≤ realFmod a b := by
  rw [realFmod_eq_mul_fract a b hb.ne']
  exact mul_nonneg hb.le (Int.fract_nonneg _)

theorem realFmod_lt (a b : ℝ) (hb : 0 < b) : realFmod a b < b := by
  rw [realFmod_eq_mul_fract a b hb.ne']
  calc b * Int.fract (a / b) < b * 1 := by
        exact mul_lt_mul_of_pos_left (Int.fract_lt_one _) hb
    _ = b := mul_one b

theorem wrapAngle_mem_Ico (x : ℝ) :
    -Real.pi ≤ wrapAngle x ∧ wrapAngle x < Real.pi := by
  have h2 : (0 : ℝ) < 2 * Real.pi := by positivity
  constructor
  · have := realFmod_nonneg (x + Real.pi) (2 * Real.pi) h2
    unfold wrapAngle
    linarith
  · have := realFmod_lt (x + Real.pi) (2 * Real.pi) h2
    unfold wrapAngle
    linarith

theorem wrapAngle_sub_int_mul (x : ℝ) :
    ∃ k : ℤ, wrapAngle x = x - 2 * Real.pi * k := by
  refine ⟨⌊(x + Real.pi) / (2 * Real.pi)⌋, ?_⟩
  unfold wrapAngle realFmod
  ring

theorem wrapAngle_pi : wrapAngle Real.pi = -Real.pi := by
  have h : (Real.pi + Real.pi) / (2 * Real.pi) = 1 := by
    rw [div_eq_one_iff_eq (by positivity)]
    ring
  unfold wrapAngle realFmod
  rw [h, Int.floor_one]
  push_cast
  ring

/-! ## Claim C4 -/

/-- C4, corrected: in the nullspace term of `_compute_osc_torques`, the
joint-angle error toward the default pose that feeds `kp_null` is congruent
to `default_pose - q` modulo `2 * pi` and lies in the half-open interval
`[-pi, pi)` — including `-pi` and excluding `pi`, not the interval
`(-pi, pi]` stated by the claim. -/
theorem claim4_nullspace_angle_wrapped (inp : OscInputs) (i : Fin 7) :
    (∃ k : ℤ, oscNullJointError inp i =
      (inp.defaultDofPos i - inp.q i) - 2 * Real.pi * k) ∧
    -Real.pi ≤ oscNullJointError inp i ∧ oscNullJointError inp i < Real.pi := by
  unfold oscNullJointError
  exact ⟨wrapAngle_sub_int_mul _, wrapAngle_mem_Ico _⟩

/-- C4, counterexample to the claim as stated: with the default pose `0` and
joint configuration `q = -pi`, the raw error `default - q` equals `pi`, and
the wrapped error that feeds `kp_null` evaluates to `-pi`, which does not
lie in the claimed interval `(-pi, pi]`. -/
theorem claim4_counterexample :
    oscNullJointError oscInputAtPi 0 = -Real.pi ∧
    ¬ (-Real.pi < oscNullJointError oscInputAtPi 0 ∧
       oscNullJointError oscInputAtPi 0 ≤ Real.pi) := by
  have h : oscNullJointError oscInputAtPi 0 = -Real.pi := by
    show wrapAngle ((fun _ : Fin 7 => (0 : ℝ)) 0 - (fun _ : Fin 7 => -Real.pi) 0) = -Real.pi
    rw [show (fun _ : Fin 7 => (0 : ℝ)) 0 - (fun _ : Fin 7 => -Real.pi) 0 = Real.pi by simp]
    exact wrapAngle_pi
  exact ⟨h, fun hc => by rw [h] at hc; exact lt_irrefl _ hc.1⟩

/-! ## Claim C1 -/

theorem resetUpdate_spec (rb : Bool) (p : ℕ) (m : ℝ) (suc : Bool) :
    ((m - 1 ≤ (p : ℝ) ∨ suc = true) → resetUpdate rb p m suc = true) ∧
    (rb = false →
      (resetUpdate rb p m suc = true ↔ (m - 1 ≤ (p : ℝ) ∨ suc = true))) := by
  unfold resetUpdate whereB
  by_cases hP : m - 1 ≤ (p : ℝ) <;> cases suc <;> cases rb <;> simp [hP]

/-- C1: in both `compute_franka_reward` functions the produced reset flag is
true whenever `step >= max_episode_length - 1` or the task's success
condition holds, and, when the incoming reset flag is false, it is true
exactly in that case (for the push task: `hold_counters > n_hold_steps`;
for the slide task: goal distance below the hardcoded threshold `0.05`). -/
theorem claim1_reset_flag :
    (∀ (resetBuf : Bool) (progressBuf : ℕ) (actions : List ℝ)
      (st : PushStates) (rs : PushRewardSettings) (maxLen : ℝ),
      ((maxLen - 1 ≤ (progressBuf : ℝ) ∨ pushSuccessCondition rs st = true) →
        (pushComputeFrankaReward resetBuf progressBuf actions st rs maxLen).2.1 = true) ∧
      (resetBuf = false →
        ((pushComputeFrankaReward resetBuf progressBuf actions st rs maxLen).2.1 = true ↔
          (maxLen - 1 ≤ (progressBuf : ℝ) ∨ pushSuccessCondition rs st = true)))) ∧
    (∀ (resetBuf : Bool) (progressBuf : ℕ) (st : SlideStates) (maxLen : ℝ),
      ((maxLen - 1 ≤ (progressBuf : ℝ) ∨ slideSuccessCondition st = true) →
        resetUpdate resetBuf progressBuf maxLen (slideSuccessCondition st) = true) ∧
      (resetBuf = false →
        (resetUpdate resetBuf progressBuf maxLen (slideSuccessCondition st) = true ↔
          (maxLen - 1 ≤ (progressBuf : ℝ) ∨ slideSuccessCondition st = true)))) := by
  constructor
  · intro rb p a st rs m
    have h : (pushComputeFrankaReward rb p a st rs m).2.1 =
        resetUpdate rb p m (pushSuccessCondition rs st) := rfl
    rw [h]
    exact resetUpdate_spec rb p m (pushSuccessCondition rs st)
  · intro rb p st m
    exact resetUpdate_spec rb p m (slideSuccessCondition st)

/-- C1 witness: push reward at step 10 of a 5-step episode raises the reset
flag, and the slide termination rule at an incoming false flag satisfies the
iff. -/
theorem claim1_witness :
    (pushComputeFrankaReward false 10 [] pushStatesZero pushRewardSettingsEx 5).2.1 = true ∧
    (resetUpdate false 10 5 (slideSuccessCondition slideStatesZero) = true ↔
      ((5 : ℝ) - 1 ≤ ((10 : ℕ) : ℝ) ∨ slideSuccessCondition slideStatesZero = true)) :=
  ⟨(claim1_reset_flag.1 false 10 [] pushStatesZero pushRewardSettingsEx 5).1
      (Or.inl (by norm_num)),
   (claim1_reset_flag.2 false 10 slideStatesZero 5).2 rfl⟩

/-! ## Claim C3 -/

/-- C3: each state refresh of the push task maps the hold counter to its
previous value plus one when the cube-to-goal distance is strictly below the
success threshold and to zero otherwise; consequently, starting from the
reset value zero, under consecutive within-threshold refreshes the counter
after `k` refreshes equals `k`, and the reward function's hold-counter
success flag (`hold_counters > n_hold_steps`) is true iff `n_hold_steps < k`
— first true on the refresh after `n_hold_steps` consecutive
within-threshold refreshes, false on all earlier ones. -/
theorem claim3_hold_counter_success :
    (∀ (c g : Vec3) (t h : ℝ),
      (norm3 (vsub3 g c) < t → updateHoldCounter c g t h = h + 1) ∧
      (¬ norm3 (vsub3 g c) < t → updateHoldCounter c g t h = 0)) ∧
    (∀ (cp gp : ℕ → Vec3) (thr : ℝ),
      (∀ j, norm3 (vsub3 (gp j) (cp j)) < thr) →
      ∀ k, holdAfter cp gp thr k = k) ∧
    (∀ (rs : PushRewardSettings) (st : PushStates) (cp gp : ℕ → Vec3) (nh k : ℕ),
      rs.n_hold_steps = (nh : ℝ) →
      (∀ j, norm3 (vsub3 (gp j) (cp j)) < rs.success_threshold) →
      st.hold_counters = holdAfter cp gp rs.success_threshold k →
      (pushSuccessCondition rs st = true ↔ nh < k)) := by
  have hcount : ∀ (cp gp : ℕ → Vec3) (thr : ℝ),
      (∀ j, norm3 (vsub3 (gp j) (cp j)) < thr) →
      ∀ k, holdAfter cp gp thr k = k := by
    intro cp gp thr hin k
    induction k with
    | zero => simp [holdAfter]
    | succ k ih1 =>
      show updateHoldCounter (cp k) (gp k) thr (holdAfter cp gp thr k) = _
      rw [updateHoldCounter, if_pos (hin k), ih1]
      push_cast
      ring
  refine ⟨?_, hcount, ?_⟩
  · intro c g t h
    exact ⟨fun hlt => by rw [updateHoldCounter, if_pos hlt],
           fun hge => by rw [updateHoldCounter, if_neg hge]⟩
  · intro rs st cp gp nh k hnh hin hhold
    rw [pushSuccessCondition, decide_eq_true_eq, hhold,
      hcount cp gp rs.success_threshold hin k, hnh]
    exact Nat.cast_lt

/-- C3 witness: with `n_hold_steps = 3` and the cube held at the goal, the
hold-counter success flag is on after 4 consecutive within-threshold
refreshes. -/
theorem claim3_witness :
    pushSuccessCondition pushRewardSettingsEx (pushHeldState 4) = true ↔ 3 < 4 :=
  claim3_hold_counter_success.2.2 pushRewardSettingsEx (pushHeldState 4)
    (fun _ => vzero) (fun _ => vzero) 3 4
    (by norm_num [pushRewardSettingsEx])
    (fun j => by norm_num [norm3, vsub3, vzero, pushRewardSettingsEx, Real.sqrt_zero])
    rfl

/-! ## Claim C5 -/

theorem norm3_nonneg (v : Vec3) : 0 ≤ norm3 v := Real.sqrt_nonneg _

theorem dot3_le_norm3_mul_norm3 (u v : Vec3) : dot3 u v ≤ norm3 u * norm3 v := by
  have hu : 0 ≤ u.1 * u.1 + u.2.1 * u.2.1 + u.2.2 * u.2.2 :=
    add_nonneg (add_nonneg (mul_self_nonneg _) (mul_self_nonneg _)) (mul_self_nonneg _)
  have hsq : dot3 u v * dot3 u v ≤
      (u.1 * u.1 + u.2.1 * u.2.1 + u.2.2 * u.2.2) *
      (v.1 * v.1 + v.2.1 * v.2.1 + v.2.2 * v.2.2) := by
    unfold dot3
    nlinarith [sq_nonneg (u.1 * v.2.1 - u.2.1 * v.1),
      sq_nonneg (u.1 * v.2.2 - u.2.2 * v.1),
      sq_nonneg (u.2.1 * v.2.2 - u.2.2 * v.2.1)]
  calc dot3 u v ≤ |dot3 u v| := le_abs_self _
    _ = Real.sqrt (dot3 u v * dot3 u v) := by
        rw [← Real.sqrt_mul_self_eq_abs]
    _ ≤ Real.sqrt ((u.1 * u.1 + u.2.1 * u.2.1 + u.2.2 * u.2.2) *
        (v.1 * v.1 + v.2.1 * v.2.1 + v.2.2 * v.2.2)) := Real.sqrt_le_sqrt hsq
    _ = norm3 u * norm3 v := Real.sqrt_mul hu _

theorem dot3_smul_smul (s t : ℝ) (a b : Vec3) :
    dot3 (smul3 s a) (smul3 t b) = s * t * dot3 a b := by
  unfold dot3 smul3
  ring

theorem slideVelAlongDirection_fast : slideVelAlongDirection slideFastState =
    10 * (1 / (1 + 1 / 1000000)) := by
  unfold slideVelAlongDirection slideFastState
  norm_num [vsub3, smul3, dot3, norm3, Real.sqrt_one]

/-- C5, amended: the throw task's velocity-alignment term is the clamped
non-negative dot product of the epsilon-normalized goal direction and
epsilon-normalized object velocity and lies in `[0, 1]`; the slide task's
velocity term, however, does not normalize the object velocity — it is the
clamped dot product of the normalized goal direction with the raw velocity,
hence non-negative but able to exceed 1 (e.g. at `slideFastState`). -/
theorem claim5_velocity_alignment_term (cp gp cv : Vec3) (st : SlideStates) :
    (0 ≤ throwDirectionTerm cp gp cv ∧ throwDirectionTerm cp gp cv ≤ 1) ∧
    0 ≤ slideVelReward st ∧
    1 < slideVelReward slideFastState := by
  refine ⟨⟨le_max_right _ _, ?_⟩, le_max_right _ _, ?_⟩
  · have hbound : throwDirAlignment cp gp cv ≤ 1 := by
      unfold throwDirAlignment throwGoalDir throwVelDir
      rw [dot3_smul_smul]
      set g := vsub3 gp cp with hg
      set a := norm3 g with ha
      set b := norm3 cv with hb
      have ha0 : 0 ≤ a := norm3_nonneg g
      have hb0 : 0 ≤ b := norm3_nonneg cv
      have hdot : dot3 g cv ≤ a * b := dot3_le_norm3_mul_norm3 g cv
      have hpa : (0 : ℝ) < a + 1 / 10000000 := by linarith
      have hpb : (0 : ℝ) < b + 1 / 10000000 := by linarith
      have hle : 1 / (a + 1 / 10000000) * (1 / (b + 1 / 10000000)) * dot3 g cv =
          dot3 g cv / ((a + 1 / 10000000) * (b + 1 / 10000000)) := by
        field_simp
        ring
      rw [hle, div_le_one (by positivity)]
      nlinarith
    exact max_le hbound (by norm_num)
  · have h : slideVelReward slideFastState = 10 * (1 / (1 + 1 / 1000000)) := by
      unfold slideVelReward
      rw [slideVelAlongDirection_fast]
      rw [max_eq_left (by norm_num)]
    rw [h]
    norm_num

/-- C5, counterexample to the claim as stated: at `slideFastState` (goal one
meter ahead, object velocity 10 m/s toward it) the slide task's
velocity-alignment term evaluates to `10 / (1 + 1e-6) > 1`, outside the
claimed range `[0, 1]`, because `cube_vel` is never normalized. -/
theorem claim5_counterexample : ¬ slideVelReward slideFastState ≤ 1 := by
  have h : slideVelReward slideFastState = 10 * (1 / (1 + 1 / 1000000)) := by
    unfold slideVelReward
    rw [slideVelAlongDirection_fast]
    rw [max_eq_left (by norm_num)]
  rw [h]
  norm_num

/-! ## Claim C6 -/

theorem tensorClamp_mem (x lo hi : ℝ) (h : lo ≤ hi) :
    lo ≤ tensorClamp x lo hi ∧ tensorClamp x lo hi ≤ hi :=
  ⟨le_max_right _ _, max_le (min_le_right _ _) h⟩

theorem tensorClamp_of_hi_lt (x lo hi : ℝ) (hlo : lo ≤ hi) (hx : hi < x) :
    tensorClamp x lo hi = hi := by
  unfold tensorClamp
  rw [min_eq_right hx.le, max_eq_left hlo]

theorem tensorClamp_of_lt_lo (x lo hi : ℝ) (hx : x < lo) :
    tensorClamp x lo hi = lo := by
  unfold tensorClamp
  exact max_eq_right ((min_le_left x hi).trans hx.le)

/-- C6: every component of the torque returned by `_compute_osc_torques`
lies within `[-effort_limit, effort_limit]` of its joint; a pre-clamp torque
whose magnitude exceeds the limit is returned with magnitude exactly the
configured limit; and a pre-clamp torque above the positive limit (such as
`1e6`) is returned exactly at the limit, never above it. -/
theorem claim6_osc_torques_clamped (inp : OscInputs) (dpose : Fin 6 → ℝ)
    (hlim : ∀ i, 0 ≤ inp.effortLimit i) :
    (∀ i, -inp.effortLimit i ≤ computeOscTorques inp dpose i ∧
      computeOscTorques inp dpose i ≤ inp.effortLimit i) ∧
    (∀ i, inp.effortLimit i < |oscPreClamp inp dpose i| →
      |computeOscTorques inp dpose i| = inp.effortLimit i) ∧
    (∀ i, inp.effortLimit i < oscPreClamp inp dpose i →
      computeOscTorques inp dpose i = inp.effortLimit i) := by
  have hle : ∀ i, -inp.effortLimit i ≤ inp.effortLimit i := fun i =>
    neg_nonpos_of_nonneg (hlim i) |>.trans (hlim i)
  have hhi : ∀ i, inp.effortLimit i < oscPreClamp inp dpose i →
      computeOscTorques inp dpose i = inp.effortLimit i := fun i hx =>
    tensorClamp_of_hi_lt _ _ _ (hle i) hx
  refine ⟨fun i => tensorClamp_mem _ _ _ (hle i), fun i habs => ?_, hhi⟩
  rcases lt_abs.mp habs with hpos | hneg
  · rw [hhi i hpos, abs_of_nonneg (hlim i)]
  · have hx : oscPreClamp inp dpose i < -inp.effortLimit i := by linarith
    rw [show computeOscTorques inp dpose i = -inp.effortLimit i from
      tensorClamp_of_lt_lo _ _ _ hx]
    rw [abs_neg, abs_of_nonneg (hlim i)]

/-- C6 witness: at the concrete input `oscInputAtPi` (limits all `87`) the
clamped torque of joint 0 lies within `[-87, 87]`. -/
theorem claim6_witness :
    -oscInputAtPi.effortLimit 0 ≤ computeOscTorques oscInputAtPi (fun _ => 0) 0 ∧
    computeOscTorques oscInputAtPi (fun _ => 0) 0 ≤ oscInputAtPi.effortLimit 0 :=
  (claim6_osc_torques_clamped oscInputAtPi (fun _ => 0)
    (fun i => by norm_num [oscInputAtPi])).1 0

/-! ## Claim C2 -/

/-- C2, evaluation at the failing input: a reset call on environment 0 of a
throw-task state whose PID integral accumulator holds `5` leaves the
accumulator at `5` (strictly positive, not the zero required by the claim),
because the body of `reset_idx` never writes `vel_i_error`; meanwhile a
torque-computation tick with unit positive velocity error on controlled
joint 1 moves the accumulator strictly up, from `5` to `6`. -/
theorem claim2_reset_keeps_integral_error :
    (throwResetIdx frankaCfgZero throwSimStateFive {0} (fun _ _ => 0)).velIError 0 1 = 5 ∧
    0 < (throwResetIdx frankaCfgZero throwSimStateFive {0} (fun _ _ => 0)).velIError 0 1 ∧
    (computeJvelTorques (fun _ => 0) (fun _ => 5) (fun _ => 1) (fun _ => 87)).2 1 = 6 := by
  refine ⟨rfl, by norm_num [throwResetIdx, throwSimStateFive], ?_⟩
  show (5 : ℝ) + (if (1 : Fin 7) ∈ throwControlledJoints then 1 - 0 else 0 - 0) = 6
  rw [if_pos (by decide)]
  norm_num

/-! ## Claim C7 -/

theorem pushReach_hold_nonneg (cfg : FrankaCfg) (thr : ℝ) (s : PushSimState)
    (h : PushReach cfg thr s) : ∀ i, 0 ≤ s.holdCounters i := by
  induction h with
  | init q0 qd0 pc0 ec0 rb0 => intro i; exact le_refl 0
  | refresh s cp gp hr ih =>
    intro i
    show 0 ≤ updateHoldCounter (cp i) (gp i) thr (s.holdCounters i)
    unfold updateHoldCounter
    split
    · linarith [ih i]
    · exact le_refl 0
  | stepProgress s hr ih => exact ih
  | reward s success maxLen hr ih => exact ih
  | reset s ids noise hr ih =>
    intro i
    show 0 ≤ if i ∈ ids then 0 else s.holdCounters i
    split
    · exact le_refl 0
    · exact ih i

theorem throwReach_contact_nonneg (cfg : FrankaCfg) (s : ThrowSimState)
    (h : ThrowReach cfg s) : ∀ i, 0 ≤ s.contactTime i := by
  induction h with
  | init q0 qd0 pc0 ec0 rb0 => intro i; exact le_refl 0
  | contactStep s cc hr ih =>
    intro i
    show 0 ≤ throwContactUpdate (cc i) (s.resetBuf i) (s.contactTime i)
    unfold throwContactUpdate
    have h1 : (0 : ℝ) ≤ s.contactTime i + (if norm3 (cc i) < 2 / 10 then (1 : ℝ) else 0) := by
      have := ih i
      split <;> linarith
    have h2 : (0 : ℝ) ≤ 1 - (if s.resetBuf i then (1 : ℝ) else 0) := by
      split <;> norm_num
    exact mul_nonneg h1 h2
  | stepProgress s hr ih => exact ih
  | reward s success maxLen hr ih => exact ih
  | jvel s jv lim hr ih => exact ih
  | reset s ids noise hr ih =>
    intro i
    show 0 ≤ if i ∈ ids then 0 else s.contactTime i
    split
    · exact le_refl 0
    · exact ih i

/-- C7: every reachable push state has a non-negative hold counter in every
environment and every reachable throw state a non-negative contact timer;
and for every index in the set passed to `reset_idx`, the hold counter /
contact timer, `progress_buf` and `reset_buf` of that environment all read
zero immediately after the call. -/
theorem claim7_counter_invariants :
    (∀ (cfg : FrankaCfg) (thr : ℝ) (s : PushSimState),
      PushReach cfg thr s → ∀ i, 0 ≤ s.holdCounters i) ∧
    (∀ (cfg : FrankaCfg) (s : ThrowSimState),
      ThrowReach cfg s → ∀ i, 0 ≤ s.contactTime i) ∧
    (∀ (cfg : FrankaCfg) (s : PushSimState) (ids : Finset ℕ)
      (noise : ℕ → Fin 9 → ℝ) (i : ℕ), i ∈ ids →
      (pushResetIdx cfg s ids noise).holdCounters i = 0 ∧
      (pushResetIdx cfg s ids noise).progressBuf i = 0 ∧
      (pushResetIdx cfg s ids noise).resetBuf i = false) ∧
    (∀ (cfg : FrankaCfg) (s : ThrowSimState) (ids : Finset ℕ)
      (noise : ℕ → Fin 9 → ℝ) (i : ℕ), i ∈ ids →
      (throwResetIdx cfg s ids noise).contactTime i = 0 ∧
      (throwResetIdx cfg s ids noise).progressBuf i = 0 ∧
      (throwResetIdx cfg s ids noise).resetBuf i = false) := by
  refine ⟨pushReach_hold_nonneg, throwReach_contact_nonneg, ?_, ?_⟩
  · intro cfg s ids noise i hmem
    refine ⟨?_, ?_, ?_⟩
    · show (if i ∈ ids then (0 : ℝ) else s.holdCounters i) = 0
      rw [if_pos hmem]
    · show (if i ∈ ids then 0 else s.progressBuf i) = 0
      rw [if_pos hmem]
    · show (if i ∈ ids then false else s.resetBuf i) = false
      rw [if_pos hmem]
  · intro cfg s ids noise i hmem
    refine ⟨?_, ?_, ?_⟩
    · show (if i ∈ ids then (0 : ℝ) else s.contactTime i) = 0
      rw [if_pos hmem]
    · show (if i ∈ ids then 0 else s.progressBuf i) = 0
      rw [if_pos hmem]
    · show (if i ∈ ids then false else s.resetBuf i) = false
      rw [if_pos hmem]

/-- C7 witness: at the initial allocation both counters of environment 0
are non-negative, and after `reset_idx` on the index set `{0}` the counters,
step count and reset flag of environment 0 all read zero. -/
theorem claim7_witness :
    0 ≤ pushSimStateZero.holdCounters 0 ∧
    0 ≤ throwSimStateZero.contactTime 0 ∧
    ((pushResetIdx frankaCfgZero pushSimStateZero {0} (fun _ _ => 0)).holdCounters 0 = 0 ∧
     (pushResetIdx frankaCfgZero pushSimStateZero {0} (fun _ _ => 0)).progressBuf 0 = 0 ∧
     (pushResetIdx frankaCfgZero pushSimStateZero {0} (fun _ _ => 0)).resetBuf 0 = false) ∧
    ((throwResetIdx frankaCfgZero throwSimStateZero {0} (fun _ _ => 0)).contactTime 0 = 0 ∧
     (throwResetIdx frankaCfgZero throwSimStateZero {0} (fun _ _ => 0)).progressBuf 0 = 0 ∧
     (throwResetIdx frankaCfgZero throwSimStateZero {0} (fun _ _ => 0)).resetBuf 0 = false) :=
  ⟨claim7_counter_invariants.1 frankaCfgZero 1 pushSimStateZero
      (PushReach.init (fun _ _ => 0) (fun _ _ => 0) (fun _ _ => 0) (fun _ _ => 0)
        (fun _ => false)) 0,
   claim7_counter_invariants.2.1 frankaCfgZero throwSimStateZero
      (ThrowReach.init (fun _ _ => 0) (fun _ _ => 0) (fun _ _ => 0) (fun _ _ => 0)
        (fun _ => false)) 0,
   claim7_counter_invariants.2.2.1 frankaCfgZero pushSimStateZero {0}
      (fun _ _ => 0) 0 (by decide),
   claim7_counter_invariants.2.2.2 frankaCfgZero throwSimStateZero {0}
      (fun _ _ => 0) 0 (by decide)⟩

/-! ## Claim C8 -/

theorem list_length_rotateLeft {α : Type} (l : List α) (n : ℕ) :
    (l.rotateLeft n).length = l.length := by
  unfold List.rotateLeft
  by_cases h : l.length ≤ 1
  · rw [if_pos h]
  · rw [if_neg h]
    simp [List.length_append, List.length_drop, List.length_take]
    omega

theorem list_getLast?_set_last {α : Type} (l : List α) (x : α) (h : l ≠ []) :
    (l.set (l.length - 1) x).getLast? = some x := by
  induction l with
  | nil => exact absurd rfl h
  | cons a as ih =>
    cases as with
    | nil => rfl
    | cons b bs =>
      show (a :: (b :: bs).set ((b :: bs).length - 1) x).getLast? = some x
      cases hset : (b :: bs).set ((b :: bs).length - 1) x with
      | nil => exact absurd (congrArg List.length hset) (by simp)
      | cons c cs =>
        rw [List.getLast?_cons_cons, ← hset]
        exact ih (by simp)

/-- C8: if the per-environment source row is wider than the history buffer's
feature width, `store_proprio_hist` fails with the dimension-mismatch error
(no buffer is produced); if it is strictly narrower, the call succeeds and
the newest (last) slot of the returned buffer is the source row followed by
exactly enough zeros to fill the width. -/
theorem claim8_store_proprio_hist (buf : List (List ℝ)) (propDim : ℕ)
    (src : List ℝ) :
    (propDim < src.length →
      storeProprioHist buf propDim src =
        Except.error "Proprioception buffer dimension mismatch!") ∧
    (src.length < propDim → buf ≠ [] →
      ∃ newBuf, storeProprioHist buf propDim src = Except.ok newBuf ∧
        newBuf.getLast? = some (src ++ List.replicate (propDim - src.length) 0) ∧
        (src ++ List.replicate (propDim - src.length) 0).length = propDim) := by
  constructor
  · intro h
    unfold storeProprioHist
    rw [if_pos h]
  · intro hlt hne
    have hr : buf.rotateLeft 1 ≠ [] := by
      intro hnil
      apply hne
      have hlen := congrArg List.length hnil
      rw [list_length_rotateLeft] at hlen
      exact List.length_eq_zero.mp hlen
    refine ⟨(buf.rotateLeft 1).set ((buf.rotateLeft 1).length - 1)
      (src ++ List.replicate (propDim - src.length) 0), ?_, ?_, ?_⟩
    · unfold storeProprioHist
      rw [if_neg (by omega)]
    · exact list_getLast?_set_last _ _ hr
    · rw [List.length_append, List.length_replicate]
      omega

/-- C8 witness: a 3-wide source row into a 2-wide buffer errors out; a
1-wide source row into a 4-wide buffer lands zero-padded in the newest slot. -/
theorem claim8_witness :
    storeProprioHist [[(1 : ℝ), 2]] 2 [1, 2, 3] =
      Except.error "Proprioception buffer dimension mismatch!" ∧
    ∃ newBuf, storeProprioHist [[(1 : ℝ), 2, 0, 0]] 4 [9] = Except.ok newBuf ∧
      newBuf.getLast? = some ([(9 : ℝ)] ++ List.replicate (4 - 1) 0) ∧
      ([(9 : ℝ)] ++ List.replicate (4 - 1) 0).length = 4 :=
  ⟨(claim8_store_proprio_hist [[1, 2]] 2 [1, 2, 3]).1 (by decide),
   (claim8_store_proprio_hist [[1, 2, 0, 0]] 4 [9]).2 (by decide)
     (List.cons_ne_nil _ _)⟩

/-! ## Claim C9 -/

/-- C9: the `reward_settings` dictionary built by `FrankaCubeSlide.__init__`
has no key `r_vel_scale`, while `compute_franka_reward` unconditionally looks
it up, so the slide task's reward computation fails with a missing-key error
for every state and every tick instead of returning a reward. -/
theorem claim9_slide_missing_vel_scale (posScale oriScale contactScale : ℝ)
    (resetBuf : Bool) (progressBuf : ℕ) (st : SlideStates) (maxLen : ℝ) :
    slideComputeFrankaReward resetBuf progressBuf st
      (slideInitRewardSettings posScale oriScale contactScale) maxLen =
      Except.error "KeyError: r_vel_scale" := rfl

/-! ## Claim C10 -/

/-- C10: the outputs of the push task's `compute_franka_reward` (reward,
reset flag, success flag) do not depend on the cube or goal orientation
quaternions or on the `r_ori_scale` coefficient: `ori_reward` is computed
but never added into `rewards`. -/
theorem claim10_reward_independent_of_orientation (resetBuf : Bool)
    (progressBuf : ℕ) (actions : List ℝ) (st : PushStates)
    (rs : PushRewardSettings) (maxLen : ℝ) (cq gq cq' gq' : Quat) (o o' : ℝ) :
    pushComputeFrankaReward resetBuf progressBuf actions
      { st with cube_quat := cq, goal_cube_quat := gq }
      { rs with r_ori_scale := o } maxLen =
    pushComputeFrankaReward resetBuf progressBuf actions
      { st with cube_quat := cq', goal_cube_quat := gq' }
      { rs with r_ori_scale := o' } maxLen := rfl
